import Mathlib

/-!
Verification development for the ritmex-bot-pro trading core.

The TypeScript sources are shallowly embedded over exact rationals:
`number` becomes `ℚ` (with an explicit `JsVal` type where `null`,
`undefined`, `NaN` or infinities can flow into a numeric position),
timestamps become `ℤ` milliseconds, fallible code returns `Except`,
and calls into the external exchange adapter / order coordinator become
explicit action values.
-/

/-- JS `Math.round`: rounds half toward positive infinity. -/
def jsRound (q : ℚ) : ℤ := ⌊q + 1/2⌋

/-- Embeds `DynamicRiskManager.roundToTwoDecimals` (src/utils/dynamic-risk, lines 649-651):
`Math.round(value * 100) / 100`. -/
def roundToTwoDecimals (value : ℚ) : ℚ := (jsRound (value * 100) : ℚ) / 100

/-- Embeds `DynamicRiskManager.roundToFourDecimals` (src/utils/dynamic-risk, lines 653-655):
`Math.round(value * 10000) / 10000`. -/
def roundToFourDecimals (value : ℚ) : ℚ := (jsRound (value * 10000) : ℚ) / 10000

/-- A JavaScript value appearing in a numeric position: `number | null | undefined`,
where the number may be `NaN` or `±Infinity`. -/
inductive JsVal
  | num (q : ℚ)
  | nan
  | posInf
  | negInf
  | null
  | undef
deriving DecidableEq

/-- JS `Number(x)` conversion followed by classification: `some q` when the result is a
finite number, `none` when it is `NaN` or infinite. `Number(null) = 0`,
`Number(undefined) = NaN`. -/
def jsToFinite : JsVal → Option ℚ
  | .num q => some q
  | .nan => none
  | .posInf => none
  | .negInf => none
  | .null => some 0
  | .undef => none

/-- Position direction, `sign(positionAmt)`. -/
inductive Dir
  | long
  | short
deriving DecidableEq

/-- Order side as sent to the exchange. -/
inductive OrderSide
  | buy
  | sell
deriving DecidableEq

/-- Embeds `PositionSnapshot` of src/utils/strategy. `markPrice` is `number | null`; by
`getPosition` it is `null` unless finite and positive. -/
structure PositionSnapshot where
  positionAmt : ℚ
  entryPrice : ℚ
  unrealizedProfit : ℚ
  markPrice : Option ℚ
deriving DecidableEq

/-- The `markPrice` sanitization inside `getPosition` (src/utils/strategy, lines 24-25):
`Number.isFinite(rawMark) && rawMark > 0 ? rawMark : null`. -/
def sanitizeMarkPrice (raw : JsVal) : Option ℚ :=
  match jsToFinite raw with
  | some m => if 0 < m then some m else none
  | none => none

/-- Embeds `calcStopLossPrice` (src/utils/strategy, lines 41-46). -/
def calcStopLossPrice (entryPrice qty : ℚ) (side : Dir) (loss : ℚ) : ℚ :=
  match side with
  | .long => entryPrice - loss / qty
  | .short => entryPrice + loss / |qty|

/-- Embeds `calcTrailingActivationPrice` (src/utils/strategy, lines 48-53). -/
def calcTrailingActivationPrice (entryPrice qty : ℚ) (side : Dir) (profit : ℚ) : ℚ :=
  match side with
  | .long => entryPrice + profit / qty
  | .short => entryPrice - profit / |qty|

/-- Embeds `isOrderPriceAllowedByMark` (src/utils/strategy, lines 61-75). The check passes
whenever the order price or the mark price is non-finite or the mark is `≤ 0`. -/
def isOrderPriceAllowedByMark (side : OrderSide) (orderPrice markPrice : JsVal)
    (maxPct : ℚ) : Bool :=
  match jsToFinite orderPrice, jsToFinite markPrice with
  | some price, some mark =>
    if mark ≤ 0 then true
    else
      match side with
      | .buy => decide (price ≤ mark * (1 + max 0 maxPct))
      | .sell => decide (price ≥ mark * (1 - max 0 maxPct))
  | _, _ => true

/-- Embeds `shouldStopLossByPercentage` (src/utils/strategy, lines 84-104). Over `ℚ` the
`Number.isFinite(entryPrice)` guard is always true, leaving the `1e-8` magnitude check. -/
def shouldStopLossByPercentage (position : PositionSnapshot) (currentPrice : ℚ)
    (stopLossPercentage : ℚ) : Bool :=
  if |position.positionAmt| < 1e-8 then false
  else if |position.entryPrice| ≤ 1e-8 then false
  else
    let pnlPercentage :=
      if 0 < position.positionAmt then
        (currentPrice - position.entryPrice) / position.entryPrice
      else
        (position.entryPrice - currentPrice) / position.entryPrice
    decide (pnlPercentage < -stopLossPercentage + 1e-10)

/-- Embeds `shouldTakeProfitByPercentage` (src/utils/strategy, lines 113-133). -/
def shouldTakeProfitByPercentage (position : PositionSnapshot) (currentPrice : ℚ)
    (takeProfitPercentage : ℚ) : Bool :=
  if |position.positionAmt| < 1e-8 then false
  else if |position.entryPrice| ≤ 1e-8 then false
  else
    let pnlPercentage :=
      if 0 < position.positionAmt then
        (currentPrice - position.entryPrice) / position.entryPrice
      else
        (position.entryPrice - currentPrice) / position.entryPrice
    decide (takeProfitPercentage - 1e-10 < pnlPercentage)

/-- Modelled from the spec: `roundDownToTick` of src/utils/math is not included under
src/ (only its callers are). The spec's configuration surface names a price rounding
granularity; we model rounding a price down to the next multiple of the tick. -/
def roundDownToTick (price tick : ℚ) : ℚ := ⌊price / tick⌋ * tick

/-- The market-refined stop price of `TrendEngine.handlePositionManagement`
(src trend-engine, lines 706-718): for a long position
`Math.max(bid1 - bid1*offsetPct, calcStopLossPrice(...))`, for a short position
`Math.min(ask1 + ask1*offsetPct, calcStopLossPrice(...))`. -/
def refineStopPrice (direction : Dir) (bid1Price ask1Price priceOffsetPct : ℚ)
    (entryPrice absAmt lossLimit : ℚ) : ℚ :=
  match direction with
  | .long =>
    max (bid1Price - bid1Price * priceOffsetPct)
      (calcStopLossPrice entryPrice absAmt .long lossLimit)
  | .short =>
    min (ask1Price + ask1Price * priceOffsetPct)
      (calcStopLossPrice entryPrice absAmt .short lossLimit)

/-! ## Greedy take-profit state machine (src/utils/greedy-take-profit) -/

/-- Embeds `GreedyProfitConfig` (src/utils/greedy-take-profit, lines 6-12). `maxWaitTime` is in
milliseconds. -/
structure GreedyProfitConfig where
  enabled : Bool
  sampleSize : ℕ
  reversalThreshold : ℚ
  maxWaitTime : ℤ
  extraProfitTarget : ℚ
deriving DecidableEq

/-- Embeds `GreedyProfitState` (src/utils/greedy-take-profit, lines 14-22). The manager keeps
`state: GreedyProfitState | null`; we carry the `Option` at the use sites. -/
structure GreedyProfitState where
  isActive : Bool
  activatedAt : ℤ
  entryPrice : ℚ
  direction : Dir
  priceHistory : List ℚ
  bestPrice : ℚ
  initialProfitPercent : ℚ
deriving DecidableEq

/-- Result object of `updateAndCheckTakeProfit`. -/
structure GreedyResult where
  shouldTakeProfit : Bool
  reason : Option String
  extraProfit : Option ℚ
deriving DecidableEq

/-- Embeds `calculateProfitPercent` (src/utils/greedy-take-profit, lines 199-203). -/
def calculateProfitPercent (currentPrice entryPrice : ℚ) (direction : Dir) : ℚ :=
  (currentPrice - entryPrice) / entryPrice * (match direction with | .long => 1 | .short => -1)

/-- Embeds `updatePriceHistory` (lines 145-154): push the price, then drop the oldest sample if
the buffer exceeds `sampleSize`. -/
def updatePriceHistory (cfg : GreedyProfitConfig) (history : List ℚ) (currentPrice : ℚ) :
    List ℚ :=
  let pushed := history ++ [currentPrice]
  if cfg.sampleSize < pushed.length then pushed.drop 1 else pushed

/-- Embeds `updateBestPrice` (lines 159-169). -/
def updateBestPrice (direction : Dir) (bestPrice currentPrice : ℚ) : ℚ :=
  match direction with
  | .long => max bestPrice currentPrice
  | .short => min bestPrice currentPrice

/-- Embeds `detectPriceReversal` (lines 175-194), evaluated on the already-updated history. -/
def detectPriceReversal (cfg : GreedyProfitConfig) (st : GreedyProfitState)
    (currentPrice : ℚ) : Bool :=
  if st.priceHistory.length < 3 then false
  else
    let avgPrice := (st.priceHistory.foldl (· + ·) 0) / (st.priceHistory.length : ℚ)
    let deviation := (currentPrice - avgPrice) / avgPrice
    match st.direction with
    | .long => decide (deviation < -cfg.reversalThreshold)
    | .short => decide (cfg.reversalThreshold < deviation)

/-- Embeds `getStateInfo().isActive` (lines 226-228) and the `this.state?.isActive` test, as
consumed by the manager and the engine. -/
def greedyIsActive (state : Option GreedyProfitState) : Bool :=
  match state with
  | some st => st.isActive
  | none => false

/-- Embeds `shouldActivateGreedy` (lines 40-60) together with `activateGreedy` (lines 65-80):
returns the activation flag and the updated `state` field. -/
def shouldActivateGreedy (cfg : GreedyProfitConfig) (state : Option GreedyProfitState)
    (now : ℤ) (currentPrice entryPrice : ℚ) (direction : Dir) (baseProfitPercent : ℚ) :
    Bool × Option GreedyProfitState :=
  if !cfg.enabled || greedyIsActive state then
    (false, state)
  else
    let profitPercent := calculateProfitPercent currentPrice entryPrice direction
    if baseProfitPercent ≤ profitPercent then
      (true, some
        { isActive := true
          activatedAt := now
          entryPrice := entryPrice
          direction := direction
          priceHistory := [currentPrice]
          bestPrice := currentPrice
          initialProfitPercent := baseProfitPercent })
    else (false, state)

/-- Embeds `updateAndCheckTakeProfit` (lines 87-140). The first component is the returned
object, or the thrown exception: in the timeout branch the source calls
`this.resetState()` (setting `this.state = null`) and then reads
`this.state.initialProfitPercent`, which throws a `TypeError` at run time. The second
component is the manager's `state` field after the call (the reset performed before the
throw persists). -/
def updateAndCheckTakeProfit (cfg : GreedyProfitConfig) (state : Option GreedyProfitState)
    (now : ℤ) (currentPrice : ℚ) : Except String GreedyResult × Option GreedyProfitState :=
  match state with
  | none => (.ok ⟨false, none, none⟩, state)
  | some st =>
    if !st.isActive || !cfg.enabled then (.ok ⟨false, none, none⟩, state)
    else
      let elapsed := now - st.activatedAt
      if cfg.maxWaitTime < elapsed then
        (.error "TypeError: Cannot read properties of null (reading initialProfitPercent)",
          none)
      else
        let history := updatePriceHistory cfg st.priceHistory currentPrice
        let best := updateBestPrice st.direction st.bestPrice currentPrice
        let st' := { st with priceHistory := history, bestPrice := best }
        let currentProfitPercent :=
          calculateProfitPercent currentPrice st.entryPrice st.direction
        if st.initialProfitPercent + cfg.extraProfitTarget ≤ currentProfitPercent then
          (.ok ⟨true, some "extra_profit_achieved",
            some (currentProfitPercent - st.initialProfitPercent)⟩, none)
        else if detectPriceReversal cfg st' currentPrice then
          (.ok ⟨true, some "price_reversal_detected",
            some (currentProfitPercent - st.initialProfitPercent)⟩, none)
        else (.ok ⟨false, none, none⟩, some st')

/-! ## Fee monitor (src/src/utils/fee-monitor.ts) -/

/-- Embeds `FeeRecord` (fee-monitor, lines 1-9). -/
structure FeeRecord where
  timestamp : ℤ
  symbol : String
  side : OrderSide
  quantity : ℚ
  price : ℚ
  fee : ℚ
  orderId : String
deriving DecidableEq

/-- Embeds `FeeSummary` (fee-monitor, lines 11-20). -/
structure FeeSummary where
  totalFee : ℚ
  totalVolume : ℚ
  tradeCount : ℕ
  avgFeeRate : ℚ
  dailyFee : ℚ
  hourlyFee : ℚ
  dailyFeePercent : ℚ
  hourlyFeePercent : ℚ
deriving DecidableEq

/-- Embeds `FeeMonitor.getFeeSummary` (fee-monitor, lines 115-139): recomputes the 1h/24h sums
from the stored ledger records on each call. -/
def getFeeSummary (records : List FeeRecord) (totalBalance : ℚ) (now : ℤ) : FeeSummary :=
  let oneDayAgo := now - 24 * 60 * 60 * 1000
  let oneHourAgo := now - 60 * 60 * 1000
  let dailyFees := records.filter (fun r => oneDayAgo < r.timestamp)
  let hourlyFees := records.filter (fun r => oneHourAgo < r.timestamp)
  let totalFee := records.foldl (fun acc r => acc + r.fee) 0
  let totalVolume := records.foldl (fun acc r => acc + r.quantity * r.price) 0
  let dailyFee := dailyFees.foldl (fun acc r => acc + r.fee) 0
  let hourlyFee := hourlyFees.foldl (fun acc r => acc + r.fee) 0
  { totalFee := totalFee
    totalVolume := totalVolume
    tradeCount := records.length
    avgFeeRate := if 0 < totalVolume then totalFee / totalVolume else 0
    dailyFee := dailyFee
    hourlyFee := hourlyFee
    dailyFeePercent := if 0 < totalBalance then dailyFee / totalBalance * 100 else 0
    hourlyFeePercent := if 0 < totalBalance then hourlyFee / totalBalance * 100 else 0 }

/-- Embeds `FeeMonitor.shouldStopTrading` (fee-monitor, lines 141-146). -/
def shouldStopTrading (records : List FeeRecord) (totalBalance : ℚ) (now : ℤ)
    (maxDailyFeePct maxHourlyFeePct : ℚ) : Bool :=
  let summary := getFeeSummary records totalBalance now
  decide (maxDailyFeePct < summary.dailyFeePercent) ||
    decide (maxHourlyFeePct < summary.hourlyFeePercent)

/-- Embeds `FeeMonitor.cleanOldRecords` (fee-monitor, lines 177-180): drop records older than
two days. -/
def cleanOldRecords (records : List FeeRecord) (now : ℤ) : List FeeRecord :=
  records.filter (fun r => now - 2 * 24 * 60 * 60 * 1000 < r.timestamp)

/-- Embeds `FeeMonitor.recordTrade` (fee-monitor, lines 71-113), ledger part: append the new
record (fee = quantity * price * feeRate) and lazily purge old records. -/
def recordTrade (feeRate : ℚ) (records : List FeeRecord) (now : ℤ) (symbol : String)
    (side : OrderSide) (quantity price : ℚ) (orderId : String) : List FeeRecord :=
  cleanOldRecords
    (records ++ [{ timestamp := now, symbol := symbol, side := side, quantity := quantity
                   price := price, fee := quantity * price * feeRate, orderId := orderId }])
    now

/-! ## Dynamic risk manager (src/utils/dynamic-risk) -/

/-- Embeds `DynamicRiskConfig` (dynamic-risk, lines 527-539), numeric fields. -/
structure DynamicRiskConfig where
  baseAmount : ℚ
  riskPercentage : ℚ
  profitTarget : ℚ
  trailingCallback : ℚ
  profitLockRatio : ℚ
  protectionOffset : ℚ
  minHoldTimeMs : ℤ
  maxPositionMultiplier : ℚ
  recalcThreshold : ℚ
deriving DecidableEq

/-- Embeds `DynamicRiskParams` (dynamic-risk, lines 541-554). -/
structure DynamicRiskParams where
  lossLimit : ℚ
  trailingProfit : ℚ
  trailingCallbackRate : ℚ
  profitLockTrigger : ℚ
  profitLockOffset : ℚ
  makerLossLimit : ℚ
  makerPriceChase : ℚ
  bidAskOffset : ℚ
  minHoldTimeMs : ℤ
  maxPositionSize : ℚ
  priceThreshold : ℚ
deriving DecidableEq

/-- The pre-rounding risk quantities of `calculateRiskParams` (dynamic-risk,
lines 567-573), before `roundToTwoDecimals` is applied. -/
structure DynamicRiskRaw where
  lossLimit : ℚ
  trailingProfit : ℚ
  profitLockTrigger : ℚ
  profitLockOffset : ℚ
deriving DecidableEq

/-- Pre-rounding part of `DynamicRiskManager.calculateRiskParams` (lines 567-573). -/
def calculateRiskParamsRaw (cfg : DynamicRiskConfig) (currentPrice : ℚ) :
    DynamicRiskRaw :=
  let positionValue := cfg.baseAmount * currentPrice
  let trailingProfit := positionValue * cfg.profitTarget
  { lossLimit := positionValue * cfg.riskPercentage
    trailingProfit := trailingProfit
    profitLockTrigger := trailingProfit * cfg.profitLockRatio
    profitLockOffset := positionValue * cfg.protectionOffset }

/-- Embeds `DynamicRiskManager.calculateRiskParams` (dynamic-risk, lines 566-594). -/
def calculateRiskParams (cfg : DynamicRiskConfig) (currentPrice : ℚ) :
    DynamicRiskParams :=
  let raw := calculateRiskParamsRaw cfg currentPrice
  { lossLimit := roundToTwoDecimals raw.lossLimit
    trailingProfit := roundToTwoDecimals raw.trailingProfit
    trailingCallbackRate := cfg.trailingCallback
    profitLockTrigger := roundToTwoDecimals raw.profitLockTrigger
    profitLockOffset := roundToTwoDecimals raw.profitLockOffset
    makerLossLimit := roundToTwoDecimals (raw.lossLimit * (9/10))
    makerPriceChase := roundToFourDecimals (currentPrice * (1/1000))
    bidAskOffset := roundToFourDecimals (currentPrice * (5/10000))
    minHoldTimeMs := cfg.minHoldTimeMs
    maxPositionSize := cfg.baseAmount * cfg.maxPositionMultiplier
    priceThreshold := cfg.recalcThreshold }

/-! ## Order lock reconciliation (TrendEngine.synchronizeLocks,
MakerEngine.syncLocksWithOrders) -/

/-- Local order mirror `AsterOrder`, the fields the lock/risk logic reads. -/
structure AsterOrder where
  orderId : ℕ
  symbol : String
  side : OrderSide
  type : String
  status : String
  price : ℚ
  stopPrice : ℚ
  reduceOnly : Bool
deriving DecidableEq

/-- Lock/pending/timer bookkeeping keyed by order kind (spec §3 LockMap / PendingMap /
TimerMap). `timers` is `true` while a fallback force-unlock timer is armed. -/
structure CoordState where
  locks : String → Bool
  timers : String → Bool
  pending : String → Option String

/-- Modelled from the spec: the order coordinator module (src/core/order-coordinator) is
not included under src/ — only its callers are. Per spec §3 and §4.1, `Pending[kind]`
holds the exchange order id awaiting confirmation, `Timer[kind]` is a fallback
force-unlock, and on reconciliation "the kind unlocks": unlocking clears the kind's lock,
cancels its fallback timer, and drops its pending marker. -/
def unlockOperating (s : CoordState) (t : String) : CoordState :=
  { locks := fun k => if k = t then false else s.locks k
    timers := fun k => if k = t then false else s.timers k
    pending := fun k => if k = t then none else s.pending k }

/-- JS falsiness of a pending id: absent or the empty string. -/
def pendingFalsy : Option String → Bool
  | none => true
  | some id => decide (id = "")

/-- Embeds `list.find((order) => String(order.orderId) === pendingId)`. -/
def findById (orders : List AsterOrder) (id : String) : Option AsterOrder :=
  orders.find? (fun o => toString o.orderId = id)

/-- Unlock condition of `TrendEngine.synchronizeLocks` (trend-engine, lines 500-510):
`!match || (match.status && match.status !== "NEW")`. -/
def trendShouldUnlock (orders : List AsterOrder) (pid : Option String) : Bool :=
  match pid with
  | none => false
  | some id =>
    if id = "" then false
    else
      match findById orders id with
      | none => true
      | some o => decide (o.status ≠ "" ∧ o.status ≠ "NEW")

/-- Unlock condition of `MakerEngine.syncLocksWithOrders` (maker-engine, lines 200-210):
`!match || (match.status && match.status !== "NEW" && match.status !== "PARTIALLY_FILLED")`. -/
def makerShouldUnlock (orders : List AsterOrder) (pid : Option String) : Bool :=
  match pid with
  | none => false
  | some id =>
    if id = "" then false
    else
      match findById orders id with
      | none => true
      | some o => decide (o.status ≠ "" ∧ o.status ≠ "NEW" ∧ o.status ≠ "PARTIALLY_FILLED")

/-- Embeds `TrendEngine.synchronizeLocks` (trend-engine, lines 500-510). The `forEach` over
`Object.keys(this.pending)` touches only the iterated kind in each step, so the loop is
expressed as an independent per-kind update through `unlockOperating`. -/
def synchronizeLocks (orders : List AsterOrder) (s : CoordState) : CoordState :=
  { locks := fun t =>
      if trendShouldUnlock orders (s.pending t) then (unlockOperating s t).locks t
      else s.locks t
    timers := fun t =>
      if trendShouldUnlock orders (s.pending t) then (unlockOperating s t).timers t
      else s.timers t
    pending := fun t =>
      if trendShouldUnlock orders (s.pending t) then (unlockOperating s t).pending t
      else s.pending t }

/-- Embeds `MakerEngine.syncLocksWithOrders` (maker-engine, lines 200-210), same shape with the
maker's unlock condition. -/
def syncLocksWithOrders (orders : List AsterOrder) (s : CoordState) : CoordState :=
  { locks := fun t =>
      if makerShouldUnlock orders (s.pending t) then (unlockOperating s t).locks t
      else s.locks t
    timers := fun t =>
      if makerShouldUnlock orders (s.pending t) then (unlockOperating s t).timers t
      else s.timers t
    pending := fun t =>
      if makerShouldUnlock orders (s.pending t) then (unlockOperating s t).pending t
      else s.pending t }

/-- The lock value claim C1 asserts after reconciliation, written from the claim's own
words: the kind's lock remains held iff it was held, a pending order id exists for the
kind, and the snapshot contains a matching live order whose status is non-terminal
(live on the exchange: `NEW` or `PARTIALLY_FILLED`). Used only to compare the claim
against the code. -/
def claimedLockAfterReconcile (s : CoordState) (orders : List AsterOrder) (t : String) :
    Bool :=
  s.locks t &&
    match s.pending t with
    | none => false
    | some id =>
      match findById orders id with
      | none => false
      | some o => decide (o.status = "NEW" ∨ o.status = "PARTIALLY_FILLED")

/-! ## Trend engine tick logic (src trend-engine, part_010) -/

/-- Embeds `Number(x) || fallback`: the JS fallback on a falsy converted value (`0` or `NaN`).
`v` is the finite value of the conversion (`none` for `NaN`). -/
def orElseNum (v : Option ℚ) (fallback : ℚ) : ℚ :=
  match v with
  | some q => if q = 0 then fallback else q
  | none => fallback

/-- A mutation issued through the order coordinator / exchange adapter. The coordinator
itself is outside src/, so its calls are recorded as actions; `replaceStop` stands for
`tryReplaceStop`'s cancel-then-place pair. -/
inductive EngineAction
  | placeStopLoss (side : OrderSide) (stopPrice quantity : ℚ)
  | replaceStop (side : OrderSide) (oldOrderId : ℕ) (nextStopPrice quantity : ℚ)
  | placeTrailing (side : OrderSide) (activationPrice quantity : ℚ)
  | cancelOrders (ids : List ℕ)
  | marketClose (side : OrderSide) (quantity : ℚ)
  | placeMarketOrder (side : OrderSide) (quantity : ℚ)
deriving DecidableEq

/-- The mark-price slippage guard before a market close
(trend-engine, lines 915-931 and 998-1014): the close is blocked only when the mark is
present (hence finite) and positive, the close-side book price is finite, and the
deviation exceeds the limit. -/
def closeBlockedByMarkGuard (mark closeSidePrice : Option ℚ) (limitPct : ℚ) : Bool :=
  match mark, closeSidePrice with
  | some m, some c => decide (0 < m) && decide (limitPct < |c - m| / m)
  | _, _ => false

/-- Embeds `TrendEngine.tryReplaceStop` (lines 1088-1175), decision part: the move is skipped
when the next stop price conflicts with the current price for the side; otherwise the
cancel-then-place pair is issued. External failure/rollback paths are not modelled. -/
def replaceStopActions (side : OrderSide) (currentOrder : AsterOrder)
    (nextStopPrice lastPrice quantity : ℚ) : List EngineAction :=
  let invalidForSide :=
    match side with
    | .sell => decide (lastPrice ≤ nextStopPrice)
    | .buy => decide (nextStopPrice ≤ lastPrice)
  if invalidForSide then []
  else [.replaceStop side currentOrder.orderId nextStopPrice quantity]

/-- Inputs read by `TrendEngine.handlePositionManagement` during one tick. `tickerLast`,
`depthBid`, `depthAsk` are the finite values of `Number(...)` on the cached ticker/depth
(`none` when missing or `NaN`); `refPrice` is `getReferencePrice()`; the risk fields are
the `getCurrent*` values effective this tick. -/
structure PMInputs where
  position : PositionSnapshot
  price : ℚ
  tickerLast : Option ℚ
  depthBid : Option ℚ
  depthAsk : Option ℚ
  priceOffsetPct : ℚ
  activationOffsetPct : ℚ
  priceTick : ℚ
  maxCloseSlippagePct : ℚ
  lossLimit : ℚ
  trailingProfit : ℚ
  profitLockTrigger : ℚ
  profitLockOffset : ℚ
  stopLossPct : ℚ
  takeProfitPct : ℚ
  tradeAmount : ℚ
  openOrders : List AsterOrder
  refPrice : Option ℚ
  greedyCfg : GreedyProfitConfig
  now : ℤ
deriving DecidableEq

/-- Result of one `handlePositionManagement` call: the `{closed, pnl}` return value, the
mutations issued, the greedy manager state after the call, and whether the call ended by
propagating an exception (the greedy timeout `TypeError`). -/
structure PMOut where
  closed : Bool
  pnl : ℚ
  actions : List EngineAction
  greedy : Option GreedyProfitState
  threw : Bool
deriving DecidableEq

/-- Embeds `TrendEngine.handlePositionManagement` (trend-engine, lines 677-1055). Mirrors the
source's order of evaluation: entry-price guard; stop refinement; profit-lock block;
stop creation/update; trailing placement; greedy activation and verdict; standard
take-profit; percentage stop-loss; mark-price guard before each market close. Over `ℚ`
the `Number.isFinite` checks on stored prices are always true. -/
def handlePositionManagement (greedy0 : Option GreedyProfitState) (inp : PMInputs) :
    PMOut :=
  let position := inp.position
  let price := inp.price
  if |position.entryPrice| ≤ 1e-8 then
    { closed := false, pnl := position.unrealizedProfit, actions := [], greedy := greedy0
      threw := false }
  else
    let direction : Dir := if 0 < position.positionAmt then .long else .short
    let absAmt := |position.positionAmt|
    let pnl :=
      (match direction with
        | .long => price - position.entryPrice
        | .short => position.entryPrice - price) * absAmt
    let stopSide : OrderSide := match direction with | .long => .sell | .short => .buy
    let marketPrice := orElseNum inp.tickerLast price
    let bid1Price := orElseNum inp.depthBid marketPrice
    let ask1Price := orElseNum inp.depthAsk marketPrice
    let stopPrice := refineStopPrice direction bid1Price ask1Price inp.priceOffsetPct
      position.entryPrice absAmt inp.lossLimit
    let activationPrice := calcTrailingActivationPrice position.entryPrice absAmt
      direction inp.trailingProfit
    let activationOffset := marketPrice * inp.activationOffsetPct
    let optimizedActivationPrice :=
      match direction with
      | .long => min (marketPrice + activationOffset) activationPrice
      | .short => max (marketPrice - activationOffset) activationPrice
    let currentStop := inp.openOrders.find?
      (fun o => (o.type == "STOP_MARKET") && (o.side == stopSide))
    let currentTrailing := inp.openOrders.find?
      (fun o => (o.type == "TRAILING_STOP_MARKET") && (o.side == stopSide))
    let profitLockStopPrice :=
      match direction with
      | .long =>
        roundDownToTick (position.entryPrice + inp.profitLockOffset / absAmt) inp.priceTick
      | .short =>
        roundDownToTick (position.entryPrice - inp.profitLockOffset / absAmt) inp.priceTick
    let isInProfit :=
      match direction with
      | .long => decide (position.entryPrice < marketPrice)
      | .short => decide (marketPrice < position.entryPrice)
    let optimizedProfitLockStopPrice :=
      if isInProfit then
        match direction with
        | .long => max (bid1Price - bid1Price * inp.priceOffsetPct) profitLockStopPrice
        | .short => min (ask1Price + ask1Price * inp.priceOffsetPct) profitLockStopPrice
      else profitLockStopPrice
    let tick := max 1e-9 inp.priceTick
    let quantityForStop := if absAmt = 0 then inp.tradeAmount else absAmt
    let lockActions : List EngineAction :=
      if inp.profitLockTrigger < pnl ∨ inp.profitLockTrigger < position.unrealizedProfit
      then
        let profitLockValid :=
          match stopSide with
          | .sell => decide (optimizedProfitLockStopPrice ≤ price - tick)
          | .buy => decide (price + tick ≤ optimizedProfitLockStopPrice)
        if profitLockValid then
          match currentStop with
          | none => [.placeStopLoss stopSide optimizedProfitLockStopPrice quantityForStop]
          | some o =>
            let improves :=
              match stopSide with
              | .sell => decide (o.stopPrice + tick ≤ optimizedProfitLockStopPrice)
              | .buy => decide (optimizedProfitLockStopPrice ≤ o.stopPrice - tick)
            if improves then
              replaceStopActions stopSide o optimizedProfitLockStopPrice price
                quantityForStop
            else []
        else []
      else []
    let stopActions : List EngineAction :=
      match currentStop with
      | none =>
        [.placeStopLoss stopSide (roundDownToTick stopPrice inp.priceTick) quantityForStop]
      | some o =>
        let shouldUpdate :=
          match stopSide with
          | .sell => decide (o.stopPrice + tick * 10 ≤ stopPrice)
          | .buy => decide (stopPrice ≤ o.stopPrice - tick * 10)
        if shouldUpdate then replaceStopActions stopSide o stopPrice price quantityForStop
        else []
    let trailingActions : List EngineAction :=
      match currentTrailing with
      | none =>
        [.placeTrailing stopSide (roundDownToTick optimizedActivationPrice inp.priceTick)
          absAmt]
      | some _ => []
    let preActions := lockActions ++ stopActions ++ trailingActions
    match inp.refPrice with
    | none =>
      { closed := false, pnl := pnl, actions := preActions, greedy := greedy0
        threw := false }
    | some currentPrice =>
      let act := shouldActivateGreedy inp.greedyCfg greedy0 inp.now currentPrice
        position.entryPrice direction inp.takeProfitPct
      let upd := updateAndCheckTakeProfit inp.greedyCfg act.2 inp.now currentPrice
      match upd.1 with
      | .error _ =>
        { closed := false, pnl := pnl, actions := preActions, greedy := upd.2
          threw := true }
      | .ok greedyResult =>
        let standardTakeProfit :=
          shouldTakeProfitByPercentage position currentPrice inp.takeProfitPct
        let shouldTP := greedyResult.shouldTakeProfit ||
          (!greedyIsActive upd.2 && standardTakeProfit)
        let cancelActions : List EngineAction :=
          if inp.openOrders.isEmpty then []
          else [.cancelOrders (inp.openOrders.map (·.orderId))]
        let closeSide : OrderSide := match direction with | .long => .sell | .short => .buy
        let closeSidePrice : Option ℚ :=
          match direction with | .long => inp.depthBid | .short => inp.depthAsk
        let guardAborts :=
          closeBlockedByMarkGuard position.markPrice closeSidePrice inp.maxCloseSlippagePct
        if shouldTP then
          if guardAborts then
            { closed := false, pnl := pnl, actions := preActions ++ cancelActions
              greedy := upd.2, threw := false }
          else
            { closed := true, pnl := pnl
              actions := preActions ++ cancelActions ++ [.marketClose closeSide absAmt]
              greedy := none, threw := false }
        else if shouldStopLossByPercentage position currentPrice inp.stopLossPct then
          if guardAborts then
            { closed := false, pnl := pnl, actions := preActions ++ cancelActions
              greedy := upd.2, threw := false }
          else
            { closed := true, pnl := pnl
              actions := preActions ++ cancelActions ++ [.marketClose closeSide absAmt]
              greedy := upd.2, threw := false }
        else
          { closed := false, pnl := pnl, actions := preActions, greedy := upd.2
            threw := false }

/-- The per-tick engine statistics and trade-attribution state touched by the close
accounting (trend-engine fields, lines 107-117 and 202-204). `tradeLog` counts pushed
log entries. -/
structure EngineStats where
  totalTrades : ℕ
  totalProfit : ℚ
  wasPositionOpen : Bool
  lastPositionAmount : ℚ
  lastPositionEntryPrice : ℚ
  greedy : Option GreedyProfitState
  feeRecords : List FeeRecord
  tradeLog : ℕ
  lastPositionCloseTime : ℤ
deriving DecidableEq

/-- Embeds `TrendEngine.detectManualPositionClose` (trend-engine, lines 119-200): on a
nonzero-to-zero transition it increments the trade statistics, records a close fee,
resets the greedy manager and stamps the close time; it then tracks the current
position. -/
def detectManualPositionClose (feeRate : ℚ) (symbol : String) (s : EngineStats)
    (position : PositionSnapshot) (currentPrice : ℚ) (now : ℤ) : EngineStats :=
  let hasPosition := decide (1e-5 < |position.positionAmt|)
  let hadPosition := s.wasPositionOpen
  let s1 :=
    if hadPosition && !hasPosition then
      let direction : Dir := if 0 < s.lastPositionAmount then .long else .short
      let pnl :=
        (match direction with
          | .long => currentPrice - s.lastPositionEntryPrice
          | .short => s.lastPositionEntryPrice - currentPrice) * |s.lastPositionAmount|
      let closeSide : OrderSide := match direction with | .long => .sell | .short => .buy
      { s with
        totalTrades := s.totalTrades + 1
        totalProfit := s.totalProfit + pnl
        feeRecords := recordTrade feeRate s.feeRecords now symbol closeSide
          |s.lastPositionAmount| currentPrice "manual_close"
        greedy := none
        lastPositionCloseTime := now
        tradeLog := s.tradeLog + 3 }
    else s
  let s2 := { s1 with wasPositionOpen := hasPosition }
  if hasPosition then
    let s3 :=
      if !hadPosition then
        let direction : Dir := if 0 < position.positionAmt then .long else .short
        let openSide : OrderSide := match direction with | .long => .buy | .short => .sell
        { s2 with
          feeRecords := recordTrade feeRate s2.feeRecords now symbol openSide
            |position.positionAmt| position.entryPrice "manual_open"
          tradeLog := s2.tradeLog + 2 }
      else s2
    { s3 with lastPositionAmount := position.positionAmt
              lastPositionEntryPrice := position.entryPrice }
  else s2

/-- One tick of the statistics/close path of `TrendEngine.tick` (trend-engine,
lines 550-564): manual-close detection, then either the flat branch (which never touches
the trade statistics; its order submission is modelled separately by
`submitMarketOrder`) or `handlePositionManagement` with the
close-counting `if (result.closed)` update. An exception propagating out of
`handlePositionManagement` is caught at the tick boundary, so no counting happens. -/
def trendTickStatsStep (feeRate : ℚ) (symbol : String) (s : EngineStats)
    (pmInp : PMInputs) : EngineStats × List EngineAction :=
  let s1 := detectManualPositionClose feeRate symbol s pmInp.position pmInp.price pmInp.now
  if |pmInp.position.positionAmt| < 1e-5 then (s1, [])
  else
    let pm := handlePositionManagement s1.greedy pmInp
    let s2 := { s1 with greedy := pm.greedy }
    if pm.threw then (s2, pm.actions)
    else if pm.closed then
      ({ s2 with totalTrades := s2.totalTrades + 1
                 totalProfit := s2.totalProfit + pm.pnl }, pm.actions)
    else (s2, pm.actions)

/-- Embeds `TrendEngine.canPlaceNewOrder` (trend-engine, lines 272-287): unrestricted without
the dynamic risk manager; otherwise both hold-time gaps must have elapsed. -/
def canPlaceNewOrder (hasDynamicManager : Bool) (now lastOpenTime lastCloseTime : ℤ)
    (minHoldTimeMs : ℤ) : Bool :=
  if !hasDynamicManager then true
  else
    decide (minHoldTimeMs ≤ now - lastOpenTime) &&
      decide (minHoldTimeMs ≤ now - lastCloseTime)

/-- Result of `submitMarketOrder`: the trade-log length and the issued mutations. -/
structure SubmitOut where
  tradeLog : ℕ
  actions : List EngineAction
deriving DecidableEq

/-- Embeds `TrendEngine.submitMarketOrder` (trend-engine, lines 627-675), decision part: the fee
circuit breaker is consulted first and skips the entry with a warning log; then the
minimum-hold-time gate; otherwise the market order is placed. -/
def submitMarketOrder (records : List FeeRecord) (balance : ℚ) (now : ℤ)
    (maxDailyFeePct maxHourlyFeePct : ℚ) (hasDynamicManager : Bool)
    (lastOpenTime lastCloseTime minHoldTimeMs : ℤ) (side : OrderSide)
    (tradeAmount : ℚ) (tradeLog : ℕ) : SubmitOut :=
  if shouldStopTrading records balance now maxDailyFeePct maxHourlyFeePct then
    { tradeLog := tradeLog + 1, actions := [] }
  else if !canPlaceNewOrder hasDynamicManager now lastOpenTime lastCloseTime minHoldTimeMs
      && hasDynamicManager then
    { tradeLog := tradeLog + 1, actions := [] }
  else
    { tradeLog := tradeLog + 2, actions := [.placeMarketOrder side tradeAmount] }

/-! ## Tick processing gate (trend-engine, lines 521-576; maker-engine, lines 216-264) -/

/-- State of the tick scheduler: the `processing` flag, the number of tick bodies
currently executing, and counters of started and skipped invocations. -/
structure TickGate where
  processing : Bool
  activeBodies : ℕ
  started : ℕ
  skipped : ℕ
deriving DecidableEq

/-- Scheduler events: a timer firing `tick()`, or a running tick body reaching its
`finally` block. -/
inductive TickEvent
  | fire
  | finish
deriving DecidableEq

/-- One scheduler step. `fire` mirrors `if (this.processing) return;
this.processing = true; ...` — the check and the set run with no interleaving point
between them on the single JS thread. `finish` mirrors the
`finally { this.processing = false }` of a running body. -/
def tickGateStep (s : TickGate) : TickEvent → TickGate
  | .fire =>
    if s.processing then { s with skipped := s.skipped + 1 }
    else
      { s with processing := true, activeBodies := s.activeBodies + 1
               started := s.started + 1 }
  | .finish =>
    if s.activeBodies = 0 then s
    else { s with processing := false, activeBodies := s.activeBodies - 1 }

/-- Initial scheduler state. -/
def tickGateInit : TickGate :=
  { processing := false, activeBodies := 0, started := 0, skipped := 0 }

/-- Run the scheduler over a sequence of events. -/
def tickGateRun (es : List TickEvent) : TickGate := es.foldl tickGateStep tickGateInit

/-- Invariant: at most one tick body is ever executing, and the `processing` flag is set
exactly while one is. -/
def tickGateInv (s : TickGate) : Prop :=
  s.activeBodies ≤ 1 ∧ (s.processing = true ↔ s.activeBodies = 1)

/-! ## Theorems -/

/-- C5: for every open position and tick, the market-refined stop price is never less
protective than the raw risk-based stop of `calcStopLossPrice`: for a long position the
refined stop is `≥` the raw stop, for a short position it is `≤` the raw stop, for all
bid/ask prices and offset percentages (and all entry/quantity/loss-limit values). -/
theorem C5_refined_stop_never_less_protective
    (entry absAmt loss bid ask pct : ℚ) :
    calcStopLossPrice entry absAmt .long loss ≤
      refineStopPrice .long bid ask pct entry absAmt loss ∧
    refineStopPrice .short bid ask pct entry absAmt loss ≤
      calcStopLossPrice entry absAmt .short loss := by
  constructor
  · exact le_max_right _ _
  · exact min_le_right _ _

/-- C3 counterexample: the claim quantifies over every long position
(`positionAmt > 0`), but a dust position of `1e-9` satisfies `positionAmt > 0` while
`shouldStopLossByPercentage` returns `false` at `currentPrice = 1.8 ≤ 1.836125`, where
the claim demands `true` (the source treats `|positionAmt| < 1e-8` as no position). -/
theorem C3_counterexample :
    (0 : ℚ) < 1e-9 ∧ (1.8 : ℚ) ≤ 1.836125 ∧
      shouldStopLossByPercentage ⟨1e-9, 1.85, 0, none⟩ 1.8 0.0075 = false := by
  refine ⟨by norm_num, by norm_num, ?_⟩
  norm_num [shouldStopLossByPercentage, abs_of_pos, abs_of_nonneg]

/-- C3 amended: for a long position with a non-dust amount (`positionAmt ≥ 1e-8`) and
`entryPrice = 1.85`, `shouldStopLossByPercentage` at stop-loss percentage `0.0075`
returns `true` for every `currentPrice ≤ 1.836125` and `false` at `1.8370`. -/
theorem C3_stop_loss_scenario (amt u : ℚ) (m : Option ℚ) (h : (1e-8 : ℚ) ≤ amt) :
    (∀ p : ℚ, p ≤ 1.836125 →
      shouldStopLossByPercentage ⟨amt, 1.85, u, m⟩ p 0.0075 = true) ∧
    shouldStopLossByPercentage ⟨amt, 1.85, u, m⟩ 1.8370 0.0075 = false := by
  have hpos : (0 : ℚ) < amt := lt_of_lt_of_le (by norm_num) h
  have hamt : ¬(|amt| < (1e-8 : ℚ)) := by
    rw [abs_of_pos hpos]
    exact not_lt.mpr h
  constructor
  · intro p hp
    simp only [shouldStopLossByPercentage]
    rw [if_neg hamt, if_neg (by norm_num [abs_of_pos] : ¬(|(1.85 : ℚ)| ≤ 1e-8)), if_pos hpos]
    rw [decide_eq_true_eq, div_lt_iff₀ (by norm_num : (0 : ℚ) < 1.85)]
    linarith
  · simp only [shouldStopLossByPercentage]
    rw [if_neg hamt, if_neg (by norm_num [abs_of_pos] : ¬(|(1.85 : ℚ)| ≤ 1e-8)), if_pos hpos]
    norm_num

/-- C3 witness. -/
theorem C3_stop_loss_scenario_witness :
    shouldStopLossByPercentage ⟨20, 1.85, 0, none⟩ 1.8 0.0075 = true ∧
      shouldStopLossByPercentage ⟨20, 1.85, 0, none⟩ 1.8370 0.0075 = false :=
  ⟨(C3_stop_loss_scenario 20 0 none (by norm_num)).1 1.8 (by norm_num),
    (C3_stop_loss_scenario 20 0 none (by norm_num)).2⟩

/-- Example greedy configuration for the C2 failing input (enabled, 10 samples, 0.2%
reversal threshold, 30 s max wait, 0.5% extra target). -/
def exGreedyCfg : GreedyProfitConfig := ⟨true, 10, 1/500, 30000, 1/200⟩

/-- Example Active greedy state for the C2 failing input: activated at t=0 with entry
100, long, baseline 1.5%. -/
def exGreedyState : GreedyProfitState := ⟨true, 0, 100, .long, [103], 103, 3/200⟩

/-- C2 failing input: with an Active state and `elapsed = 30001 > maxWaitTime = 30000`,
`updateAndCheckTakeProfit` does not return `{shouldTakeProfit: true, reason:
'greedy_timeout'}` as the claim states: the source resets `this.state` to `null` and
then reads `this.state.initialProfitPercent`, throwing a `TypeError` (the state reset
performed before the throw persists, so the manager is left Inactive). -/
theorem C2_timeout_throws :
    updateAndCheckTakeProfit exGreedyCfg (some exGreedyState) 30001 103 =
      (.error "TypeError: Cannot read properties of null (reading initialProfitPercent)",
        none) := by
  rfl

/-- Twice rounding to two decimals commutes with doubling only up to one rounding unit:
`|round2(2x) - 2·round2(x)| ≤ 1/100`. -/
theorem roundToTwoDecimals_double_bound (x : ℚ) :
    |roundToTwoDecimals (2 * x) - 2 * roundToTwoDecimals x| ≤ 1 / 100 := by
  unfold roundToTwoDecimals jsRound
  have ha1 : ((⌊2 * x * 100 + 1/2⌋ : ℤ) : ℚ) ≤ 2 * x * 100 + 1/2 := Int.floor_le _
  have ha2 : 2 * x * 100 + 1/2 < (⌊2 * x * 100 + 1/2⌋ : ℤ) + 1 := Int.lt_floor_add_one _
  have hb1 : ((⌊x * 100 + 1/2⌋ : ℤ) : ℚ) ≤ x * 100 + 1/2 := Int.floor_le _
  have hb2 : x * 100 + 1/2 < (⌊x * 100 + 1/2⌋ : ℤ) + 1 := Int.lt_floor_add_one _
  have h3 : ⌊2 * x * 100 + 1/2⌋ - 2 * ⌊x * 100 + 1/2⌋ < 2 := by
    have : ((⌊2 * x * 100 + 1/2⌋ : ℤ) : ℚ) - 2 * ((⌊x * 100 + 1/2⌋ : ℤ) : ℚ) < 2 := by
      linarith
    exact_mod_cast this
  have h4 : (-2 : ℤ) < ⌊2 * x * 100 + 1/2⌋ - 2 * ⌊x * 100 + 1/2⌋ := by
    have : (-2 : ℚ) < ((⌊2 * x * 100 + 1/2⌋ : ℤ) : ℚ) - 2 * ((⌊x * 100 + 1/2⌋ : ℤ) : ℚ) := by
      linarith
    exact_mod_cast this
  have h5 : |⌊2 * x * 100 + 1/2⌋ - 2 * ⌊x * 100 + 1/2⌋| ≤ 1 := by
    rw [abs_le]
    omega
  have h6 : ((⌊2 * x * 100 + 1/2⌋ : ℤ) : ℚ) / 100 - 2 * (((⌊x * 100 + 1/2⌋ : ℤ) : ℚ) / 100)
      = ((⌊2 * x * 100 + 1/2⌋ - 2 * ⌊x * 100 + 1/2⌋ : ℤ) : ℚ) / 100 := by
    push_cast
    ring
  rw [h6, abs_div, abs_of_pos (by norm_num : (0 : ℚ) < 100)]
  have h7 : |((⌊2 * x * 100 + 1/2⌋ - 2 * ⌊x * 100 + 1/2⌋ : ℤ) : ℚ)| ≤ 1 := by
    rw [← Int.cast_abs]
    exact_mod_cast h5
  linarith

/-- C4 counterexample: with `baseAmount = 1` and `riskPercentage = 0.005`, the rounded
`lossLimit` at price `2·1` is `0.01`, not double the `0.01` returned at price `1` —
two-decimal rounding breaks exact doubling of the returned outputs. -/
theorem C4_counterexample :
    (0 : ℚ) < 1 ∧
      (calculateRiskParams ⟨1, 1/200, 1/200, 0, 1, 1/200, 0, 1, 0⟩ (2 * 1)).lossLimit ≠
        2 * (calculateRiskParams ⟨1, 1/200, 1/200, 0, 1, 1/200, 0, 1, 0⟩ 1).lossLimit := by
  constructor
  · norm_num
  · norm_num [calculateRiskParams, calculateRiskParamsRaw, roundToTwoDecimals, jsRound]

/-- C4 amended: for every fixed percentage configuration and price `p > 0`, the
pre-rounding `lossLimit`, `trailingProfit`, `profitLockTrigger` and `profitLockOffset`
at `2p` are exactly double those at `p`; the returned outputs are these values rounded
to two decimals; hence each returned output at `2p` agrees with double the returned
output at `p` to within one rounding unit (`0.01`). -/
theorem C4_dynamic_risk_scaling (cfg : DynamicRiskConfig) (p : ℚ) (hp : 0 < p) :
    ((calculateRiskParamsRaw cfg (2 * p)).lossLimit
        = 2 * (calculateRiskParamsRaw cfg p).lossLimit ∧
      (calculateRiskParamsRaw cfg (2 * p)).trailingProfit
        = 2 * (calculateRiskParamsRaw cfg p).trailingProfit ∧
      (calculateRiskParamsRaw cfg (2 * p)).profitLockTrigger
        = 2 * (calculateRiskParamsRaw cfg p).profitLockTrigger ∧
      (calculateRiskParamsRaw cfg (2 * p)).profitLockOffset
        = 2 * (calculateRiskParamsRaw cfg p).profitLockOffset) ∧
    ((calculateRiskParams cfg p).lossLimit
        = roundToTwoDecimals (calculateRiskParamsRaw cfg p).lossLimit ∧
      (calculateRiskParams cfg p).trailingProfit
        = roundToTwoDecimals (calculateRiskParamsRaw cfg p).trailingProfit ∧
      (calculateRiskParams cfg p).profitLockTrigger
        = roundToTwoDecimals (calculateRiskParamsRaw cfg p).profitLockTrigger ∧
      (calculateRiskParams cfg p).profitLockOffset
        = roundToTwoDecimals (calculateRiskParamsRaw cfg p).profitLockOffset) ∧
    (|(calculateRiskParams cfg (2 * p)).lossLimit
        - 2 * (calculateRiskParams cfg p).lossLimit| ≤ 1 / 100 ∧
      |(calculateRiskParams cfg (2 * p)).trailingProfit
        - 2 * (calculateRiskParams cfg p).trailingProfit| ≤ 1 / 100 ∧
      |(calculateRiskParams cfg (2 * p)).profitLockTrigger
        - 2 * (calculateRiskParams cfg p).profitLockTrigger| ≤ 1 / 100 ∧
      |(calculateRiskParams cfg (2 * p)).profitLockOffset
        - 2 * (calculateRiskParams cfg p).profitLockOffset| ≤ 1 / 100) := by
  have e1 : (calculateRiskParamsRaw cfg (2 * p)).lossLimit
      = 2 * (calculateRiskParamsRaw cfg p).lossLimit := by
    simp only [calculateRiskParamsRaw]
    ring
  have e2 : (calculateRiskParamsRaw cfg (2 * p)).trailingProfit
      = 2 * (calculateRiskParamsRaw cfg p).trailingProfit := by
    simp only [calculateRiskParamsRaw]
    ring
  have e3 : (calculateRiskParamsRaw cfg (2 * p)).profitLockTrigger
      = 2 * (calculateRiskParamsRaw cfg p).profitLockTrigger := by
    simp only [calculateRiskParamsRaw]
    ring
  have e4 : (calculateRiskParamsRaw cfg (2 * p)).profitLockOffset
      = 2 * (calculateRiskParamsRaw cfg p).profitLockOffset := by
    simp only [calculateRiskParamsRaw]
    ring
  refine ⟨⟨e1, e2, e3, e4⟩, ⟨rfl, rfl, rfl, rfl⟩, ?_, ?_, ?_, ?_⟩
  · have h := roundToTwoDecimals_double_bound (calculateRiskParamsRaw cfg p).lossLimit
    have e : (calculateRiskParams cfg (2 * p)).lossLimit
        = roundToTwoDecimals (2 * (calculateRiskParamsRaw cfg p).lossLimit) := by
      rw [show (calculateRiskParams cfg (2 * p)).lossLimit
          = roundToTwoDecimals (calculateRiskParamsRaw cfg (2 * p)).lossLimit from rfl, e1]
    rw [e]
    exact h
  · have h := roundToTwoDecimals_double_bound (calculateRiskParamsRaw cfg p).trailingProfit
    have e : (calculateRiskParams cfg (2 * p)).trailingProfit
        = roundToTwoDecimals (2 * (calculateRiskParamsRaw cfg p).trailingProfit) := by
      rw [show (calculateRiskParams cfg (2 * p)).trailingProfit
          = roundToTwoDecimals (calculateRiskParamsRaw cfg (2 * p)).trailingProfit from rfl, e2]
    rw [e]
    exact h
  · have h := roundToTwoDecimals_double_bound (calculateRiskParamsRaw cfg p).profitLockTrigger
    have e : (calculateRiskParams cfg (2 * p)).profitLockTrigger
        = roundToTwoDecimals (2 * (calculateRiskParamsRaw cfg p).profitLockTrigger) := by
      rw [show (calculateRiskParams cfg (2 * p)).profitLockTrigger
          = roundToTwoDecimals (calculateRiskParamsRaw cfg (2 * p)).profitLockTrigger from rfl, e3]
    rw [e]
    exact h
  · have h := roundToTwoDecimals_double_bound (calculateRiskParamsRaw cfg p).profitLockOffset
    have e : (calculateRiskParams cfg (2 * p)).profitLockOffset
        = roundToTwoDecimals (2 * (calculateRiskParamsRaw cfg p).profitLockOffset) := by
      rw [show (calculateRiskParams cfg (2 * p)).profitLockOffset
          = roundToTwoDecimals (calculateRiskParamsRaw cfg (2 * p)).profitLockOffset from rfl, e4]
    rw [e]
    exact h

/-- C4 witness. -/
theorem C4_dynamic_risk_scaling_witness :
    (calculateRiskParamsRaw ⟨1, 1/200, 1/200, 0, 1, 1/200, 0, 1, 0⟩ (2 * 1)).lossLimit
      = 2 * (calculateRiskParamsRaw ⟨1, 1/200, 1/200, 0, 1, 1/200, 0, 1, 0⟩ 1).lossLimit :=
  (C4_dynamic_risk_scaling ⟨1, 1/200, 1/200, 0, 1, 1/200, 0, 1, 0⟩ 1 (by norm_num)).1.1

/-- Example `handlePositionManagement` input for C10: long position with no mark price
available (`markPrice = null`), take-profit condition satisfied at the reference
price. -/
def pmMarkNoneExample : PMInputs :=
  { position := ⟨1, 100, 0, none⟩
    price := 105
    tickerLast := some 105
    depthBid := some 105
    depthAsk := some 105
    priceOffsetPct := 3/500
    activationOffsetPct := 3/250
    priceTick := 1/10000
    maxCloseSlippagePct := 1/20
    lossLimit := 5
    trailingProfit := 10
    profitLockTrigger := 10000
    profitLockOffset := 1
    stopLossPct := 3/400
    takeProfitPct := 3/200
    tradeAmount := 1
    openOrders := []
    refPrice := some 105
    greedyCfg := ⟨false, 10, 1/500, 30000, 1/200⟩
    now := 0 }

/-- C10: whenever the mark price is `null`, `NaN`, non-finite or `≤ 0`, the slippage
protection is vacuous — `isOrderPriceAllowedByMark` returns `true` for every side and
order price, `getPosition` sanitizes such a raw mark to `null`, the engine's mark guard
before a market close never blocks (also when the close-side book price is non-finite),
and on a concrete tick with `markPrice = null` the close path issues the market close
unguarded. -/
theorem C10_invalid_mark_disables_guard :
    (∀ (side : OrderSide) (orderPrice : JsVal) (maxPct : ℚ) (badMark : JsVal),
        (jsToFinite badMark = none ∨ ∃ m, jsToFinite badMark = some m ∧ m ≤ 0) →
        isOrderPriceAllowedByMark side orderPrice badMark maxPct = true) ∧
    (∀ raw : JsVal,
        (jsToFinite raw = none ∨ ∃ m, jsToFinite raw = some m ∧ m ≤ 0) →
        sanitizeMarkPrice raw = none) ∧
    (∀ (csp : Option ℚ) (limit : ℚ), closeBlockedByMarkGuard none csp limit = false) ∧
    (∀ (m : ℚ) (csp : Option ℚ) (limit : ℚ), m ≤ 0 →
        closeBlockedByMarkGuard (some m) csp limit = false) ∧
    (∀ (mark : Option ℚ) (limit : ℚ), closeBlockedByMarkGuard mark none limit = false) ∧
    ((handlePositionManagement none pmMarkNoneExample).closed = true ∧
      EngineAction.marketClose .sell 1 ∈ (handlePositionManagement none pmMarkNoneExample).actions) := by
  refine ⟨?_, ?_, ?_, ?_, ?_, ?_⟩
  · intro side orderPrice maxPct badMark hbad
    rcases hbad with h | ⟨m, hm, hm0⟩
    · cases h' : jsToFinite orderPrice <;> simp [isOrderPriceAllowedByMark, h, h']
    · cases h' : jsToFinite orderPrice <;>
        simp [isOrderPriceAllowedByMark, hm, h', if_pos hm0]
  · intro raw hbad
    rcases hbad with h | ⟨m, hm, hm0⟩
    · simp [sanitizeMarkPrice, h]
    · simp [sanitizeMarkPrice, hm, not_lt.mpr hm0]
  · intro csp limit
    cases csp <;> rfl
  · intro m csp limit hm
    cases csp with
    | none => rfl
    | some c =>
      simp [closeBlockedByMarkGuard, decide_eq_false (not_lt.mpr hm)]
  · intro mark limit
    cases mark <;> rfl
  · constructor
    · norm_num [handlePositionManagement, pmMarkNoneExample, refineStopPrice,
        calcStopLossPrice, calcTrailingActivationPrice, roundDownToTick, orElseNum,
        shouldActivateGreedy, updateAndCheckTakeProfit, greedyIsActive,
        shouldTakeProfitByPercentage, shouldStopLossByPercentage,
        closeBlockedByMarkGuard, replaceStopActions, List.find?, calculateProfitPercent,
        updatePriceHistory, updateBestPrice, detectPriceReversal, abs_of_pos,
        abs_of_nonneg, jsRound]
    · norm_num [handlePositionManagement, pmMarkNoneExample, refineStopPrice,
        calcStopLossPrice, calcTrailingActivationPrice, roundDownToTick, orElseNum,
        shouldActivateGreedy, updateAndCheckTakeProfit, greedyIsActive,
        shouldTakeProfitByPercentage, shouldStopLossByPercentage,
        closeBlockedByMarkGuard, replaceStopActions, List.find?, calculateProfitPercent,
        updatePriceHistory, updateBestPrice, detectPriceReversal, abs_of_pos,
        abs_of_nonneg, jsRound]

/-- C10 witness. -/
theorem C10_invalid_mark_witness :
    isOrderPriceAllowedByMark .buy (.num 1000000) .nan 0 = true ∧
      closeBlockedByMarkGuard (some 0) (some 105) (1/100) = false :=
  ⟨C10_invalid_mark_disables_guard.1 .buy (.num 1000000) 0 .nan (Or.inl rfl),
    C10_invalid_mark_disables_guard.2.2.2.1 0 (some 105) (1/100) le_rfl⟩

/-- The tick-gate invariant holds initially. -/
theorem tickGateInv_init : tickGateInv tickGateInit := by
  constructor
  · norm_num [tickGateInit]
  · simp [tickGateInit]

/-- One scheduler step preserves the tick-gate invariant. -/
theorem tickGateStep_preserves (s : TickGate) (e : TickEvent) (h : tickGateInv s) :
    tickGateInv (tickGateStep s e) := by
  rcases s with ⟨proc, act, st, sk⟩
  obtain ⟨h1, h2⟩ := h
  cases proc <;> cases e <;>
    simp_all [tickGateStep, tickGateInv] <;>
    omega

/-- C9: a `tick()` firing while the previous invocation is still running (the
`processing` flag set) leaves the engine state untouched — no body is started, nothing
is read or mutated, only the skip counter advances, and the skipped invocation is not
queued — and along every event sequence at most one tick body is ever executing, so no
two tick evaluations overlap. -/
theorem C9_tick_gate :
    (∀ s : TickGate, s.processing = true →
      tickGateStep s .fire = { s with skipped := s.skipped + 1 }) ∧
    (∀ es : List TickEvent, tickGateInv (tickGateRun es)) := by
  constructor
  · intro s hp
    simp [tickGateStep, hp]
  · intro es
    have main : ∀ (l : List TickEvent) (s : TickGate), tickGateInv s →
        tickGateInv (l.foldl tickGateStep s) := by
      intro l
      induction l with
      | nil => intro s hs; exact hs
      | cons e t ih =>
        intro s hs
        exact ih _ (tickGateStep_preserves s e hs)
    exact main es tickGateInit tickGateInv_init

/-- C9 witness. -/
theorem C9_tick_gate_witness :
    tickGateStep ⟨true, 1, 1, 0⟩ .fire = ⟨true, 1, 1, 1⟩ ∧
      tickGateInv (tickGateRun [.fire, .fire, .finish, .fire]) :=
  ⟨C9_tick_gate.1 ⟨true, 1, 1, 0⟩ rfl, C9_tick_gate.2 [.fire, .fire, .finish, .fire]⟩

/-- C6: with exactly two fee records of `$2` and `$3` inside the hourly window at read
time and balance `$1000`, `getFeeSummary` reports `hourlyFeePercent = 0.5` and
`dailyFeePercent = 0.5`; at a later read where the `$2` record is more than one hour old
but less than 24 hours old (the `$3` record still within the hour), it drops out of the
hourly sum (`0.3%`) while still counting in the daily sum (`0.5%`). Both window sums are
recomputed from the stored records on each read: `getFeeSummary` is a function of the
ledger and the read time only. -/
theorem C6_fee_window_scenario
    (t1 t2 now now2 : ℤ) (sy1 sy2 o1 o2 : String) (sd1 sd2 : OrderSide)
    (q1 p1 q2 p2 : ℚ)
    (h1 : now - 3600000 < t1) (h2 : now - 3600000 < t2) :
    ((getFeeSummary [⟨t1, sy1, sd1, q1, p1, 2, o1⟩, ⟨t2, sy2, sd2, q2, p2, 3, o2⟩]
        1000 now).hourlyFeePercent = 1/2 ∧
      (getFeeSummary [⟨t1, sy1, sd1, q1, p1, 2, o1⟩, ⟨t2, sy2, sd2, q2, p2, 3, o2⟩]
        1000 now).dailyFeePercent = 1/2) ∧
    (t1 ≤ now2 - 3600000 → now2 - 86400000 < t1 → now2 - 3600000 < t2 →
      (getFeeSummary [⟨t1, sy1, sd1, q1, p1, 2, o1⟩, ⟨t2, sy2, sd2, q2, p2, 3, o2⟩]
        1000 now2).hourlyFeePercent = 3/10 ∧
      (getFeeSummary [⟨t1, sy1, sd1, q1, p1, 2, o1⟩, ⟨t2, sy2, sd2, q2, p2, 3, o2⟩]
        1000 now2).dailyFeePercent = 1/2) := by
  constructor
  · have hd1 : now - 86400000 < t1 := by omega
    have hd2 : now - 86400000 < t2 := by omega
    constructor
    · simp [getFeeSummary, h1, h2, hd1, hd2]
      norm_num
    · simp [getFeeSummary, h1, h2, hd1, hd2]
      norm_num
  · intro g1 g2 g3
    have hh1 : ¬(now2 - 3600000 < t1) := by omega
    have hh2 : now2 - 3600000 < t2 := by omega
    have hd1 : now2 - 86400000 < t1 := by omega
    have hd2 : now2 - 86400000 < t2 := by omega
    constructor
    · simp [getFeeSummary, hh1, hh2, hd1, hd2]
      norm_num
    · simp [getFeeSummary, hh1, hh2, hd1, hd2]
      norm_num

/-- C6 witness. -/
theorem C6_fee_window_scenario_witness :
    (getFeeSummary [⟨0, "S", .buy, 1, 1, 2, "a"⟩, ⟨1000, "S", .sell, 1, 1, 3, "b"⟩]
      1000 2000).hourlyFeePercent = 1/2 ∧
    (getFeeSummary [⟨0, "S", .buy, 1, 1, 2, "a"⟩, ⟨1000, "S", .sell, 1, 1, 3, "b"⟩]
      1000 3600500).hourlyFeePercent = 3/10 :=
  ⟨(C6_fee_window_scenario 0 1000 2000 3600500 "S" "S" "a" "b" .buy .sell 1 1 1 1
      (by omega) (by omega)).1.1,
    ((C6_fee_window_scenario 0 1000 2000 3600500 "S" "S" "a" "b" .buy .sell 1 1 1 1
      (by omega) (by omega)).2 (by omega) (by omega) (by omega)).1⟩

/-- Example coordinator state for C1: the `STOP_MARKET` kind is locked, with an armed
fallback timer and pending id `"1"`. -/
def exC1State : CoordState :=
  { locks := fun t => if t = "STOP_MARKET" then true else false
    timers := fun t => if t = "STOP_MARKET" then true else false
    pending := fun t => if t = "STOP_MARKET" then some "1" else none }

/-- Example order snapshot for C1: the pending order is live but partially filled. -/
def exC1Orders : List AsterOrder :=
  [⟨1, "BTCUSDT", .sell, "STOP_MARKET", "PARTIALLY_FILLED", 0, 0, true⟩]

/-- C1 counterexample: the pending id `"1"` matches a live order with the non-terminal
status `PARTIALLY_FILLED`, so by the claim the lock should remain held — but
`TrendEngine.synchronizeLocks` unlocks on any status other than `NEW`, clearing the
lock. -/
theorem C1_counterexample :
    claimedLockAfterReconcile exC1State exC1Orders "STOP_MARKET" = true ∧
      (synchronizeLocks exC1Orders exC1State).locks "STOP_MARKET" = false := by
  constructor
  · rfl
  · rfl

/-- C1 amended: after reconciliation, for a kind whose pending id is absent or empty the
lock, timer and pending marker are untouched (in both engines); for a kind with a
non-empty pending id, if the snapshot lacks a matching order the kind's lock clears at
once — pending dropped and fallback timer cancelled, without waiting for it — and if a
match exists the trend engine keeps the lock exactly when the matched status is unset or
`NEW` (so a live `PARTIALLY_FILLED` order unlocks), while the maker engine keeps it
exactly when the status is unset, `NEW` or `PARTIALLY_FILLED`. -/
theorem C1_lock_reconcile_amended (s : CoordState) (orders : List AsterOrder)
    (t : String) :
    (pendingFalsy (s.pending t) = true →
      (synchronizeLocks orders s).locks t = s.locks t ∧
      (synchronizeLocks orders s).timers t = s.timers t ∧
      (synchronizeLocks orders s).pending t = s.pending t ∧
      (syncLocksWithOrders orders s).locks t = s.locks t) ∧
    (∀ id, s.pending t = some id → id ≠ "" →
      (findById orders id = none →
        (synchronizeLocks orders s).locks t = false ∧
        (synchronizeLocks orders s).timers t = false ∧
        (synchronizeLocks orders s).pending t = none ∧
        (syncLocksWithOrders orders s).locks t = false) ∧
      (∀ o, findById orders id = some o →
        ((o.status = "" ∨ o.status = "NEW") →
          (synchronizeLocks orders s).locks t = s.locks t ∧
          (synchronizeLocks orders s).pending t = s.pending t) ∧
        (o.status ≠ "" → o.status ≠ "NEW" →
          (synchronizeLocks orders s).locks t = false ∧
          (synchronizeLocks orders s).timers t = false ∧
          (synchronizeLocks orders s).pending t = none) ∧
        ((o.status = "" ∨ o.status = "NEW" ∨ o.status = "PARTIALLY_FILLED") →
          (syncLocksWithOrders orders s).locks t = s.locks t) ∧
        (o.status ≠ "" → o.status ≠ "NEW" → o.status ≠ "PARTIALLY_FILLED" →
          (syncLocksWithOrders orders s).locks t = false))) := by
  constructor
  · intro hfal
    have hT : trendShouldUnlock orders (s.pending t) = false := by
      cases hp : s.pending t with
      | none => rfl
      | some id =>
        rw [hp] at hfal
        have hid : id = "" := by simpa [pendingFalsy] using hfal
        simp [trendShouldUnlock, hid]
    have hM : makerShouldUnlock orders (s.pending t) = false := by
      cases hp : s.pending t with
      | none => rfl
      | some id =>
        rw [hp] at hfal
        have hid : id = "" := by simpa [pendingFalsy] using hfal
        simp [makerShouldUnlock, hid]
    simp [synchronizeLocks, syncLocksWithOrders, hT, hM]
  · intro id hpend hid
    constructor
    · intro hfind
      have hT : trendShouldUnlock orders (s.pending t) = true := by
        rw [hpend]
        simp [trendShouldUnlock, hid, hfind]
      have hM : makerShouldUnlock orders (s.pending t) = true := by
        rw [hpend]
        simp [makerShouldUnlock, hid, hfind]
      simp [synchronizeLocks, syncLocksWithOrders, unlockOperating, hT, hM]
    · intro o hfind
      refine ⟨?_, ?_, ?_, ?_⟩
      · intro hst
        have hT : trendShouldUnlock orders (s.pending t) = false := by
          rw [hpend]
          rcases hst with h | h <;> simp [trendShouldUnlock, hid, hfind, h]
        simp [synchronizeLocks, hT]
      · intro h1 h2
        have hT : trendShouldUnlock orders (s.pending t) = true := by
          rw [hpend]
          simp [trendShouldUnlock, hid, hfind, h1, h2]
        simp [synchronizeLocks, unlockOperating, hT]
      · intro hst
        have hM : makerShouldUnlock orders (s.pending t) = false := by
          rw [hpend]
          rcases hst with h | h | h <;> simp [makerShouldUnlock, hid, hfind, h]
        simp [syncLocksWithOrders, hM]
      · intro h1 h2 h3
        have hM : makerShouldUnlock orders (s.pending t) = true := by
          rw [hpend]
          simp [makerShouldUnlock, hid, hfind, h1, h2, h3]
        simp [syncLocksWithOrders, unlockOperating, hM]

/-- C1 witness: with pending id `"1"` matched by a `NEW` order, the trend engine keeps
the lock; on a snapshot lacking the id, the lock clears. -/
theorem C1_lock_reconcile_witness :
    (synchronizeLocks [⟨1, "BTCUSDT", .sell, "STOP_MARKET", "NEW", 0, 0, true⟩]
        exC1State).locks "STOP_MARKET" = exC1State.locks "STOP_MARKET" ∧
      (synchronizeLocks [] exC1State).locks "STOP_MARKET" = false :=
  ⟨(((C1_lock_reconcile_amended exC1State
        [⟨1, "BTCUSDT", .sell, "STOP_MARKET", "NEW", 0, 0, true⟩] "STOP_MARKET").2 "1"
      rfl (by decide)).2 ⟨1, "BTCUSDT", .sell, "STOP_MARKET", "NEW", 0, 0, true⟩ rfl).1
      (Or.inr rfl) |>.1,
    (((C1_lock_reconcile_amended exC1State [] "STOP_MARKET").2 "1" rfl (by decide)).1
      rfl).1⟩

/-- C7: `shouldStopTrading` is a pure function of the current window ratios versus the
configured caps (true iff `dailyFeePercent` exceeds `maxDailyFeePct` or
`hourlyFeePercent` exceeds `maxHourlyFeePct`); whenever it returns true,
`submitMarketOrder` issues no exchange mutation and leaves the engine unchanged except
for one warning log entry; and the close path of a tick
(`trendTickStatsStep`, which runs `handlePositionManagement`) is independent of the fee
ledger — no position-closing decision is blocked or forced by it. -/
theorem C7_fee_breaker_scope :
    (∀ (records : List FeeRecord) (balance : ℚ) (now : ℤ) (maxD maxH : ℚ),
      shouldStopTrading records balance now maxD maxH = true ↔
        (maxD < (getFeeSummary records balance now).dailyFeePercent ∨
          maxH < (getFeeSummary records balance now).hourlyFeePercent)) ∧
    (∀ (records : List FeeRecord) (balance : ℚ) (now : ℤ) (maxD maxH : ℚ)
        (hasDyn : Bool) (lo lc mh : ℤ) (side : OrderSide) (amt : ℚ) (log : ℕ),
      shouldStopTrading records balance now maxD maxH = true →
        submitMarketOrder records balance now maxD maxH hasDyn lo lc mh side amt log =
          { tradeLog := log + 1, actions := [] }) ∧
    (∀ (feeRate : ℚ) (symbol : String) (s : EngineStats) (f1 f2 : List FeeRecord)
        (inp : PMInputs),
      (trendTickStatsStep feeRate symbol { s with feeRecords := f1 } inp).2 =
        (trendTickStatsStep feeRate symbol { s with feeRecords := f2 } inp).2 ∧
      (trendTickStatsStep feeRate symbol { s with feeRecords := f1 } inp).1.totalTrades =
        (trendTickStatsStep feeRate symbol { s with feeRecords := f2 } inp).1.totalTrades ∧
      (trendTickStatsStep feeRate symbol { s with feeRecords := f1 } inp).1.totalProfit =
        (trendTickStatsStep feeRate symbol { s with feeRecords := f2 } inp).1.totalProfit ∧
      (trendTickStatsStep feeRate symbol { s with feeRecords := f1 } inp).1.greedy =
        (trendTickStatsStep feeRate symbol { s with feeRecords := f2 } inp).1.greedy ∧
      (trendTickStatsStep feeRate symbol { s with feeRecords := f1 } inp).1.wasPositionOpen =
        (trendTickStatsStep feeRate symbol { s with feeRecords := f2 } inp).1.wasPositionOpen) := by
  refine ⟨?_, ?_, ?_⟩
  · intro records balance now maxD maxH
    simp [shouldStopTrading]
  · intro records balance now maxD maxH hasDyn lo lc mh side amt log h
    simp [submitMarketOrder, h]
  · intro feeRate symbol s f1 f2 inp
    by_cases hflat : |inp.position.positionAmt| < (1e-5 : ℚ) <;>
      by_cases hhas : ((1e-5 : ℚ) < |inp.position.positionAmt|) <;>
        by_cases hwas : s.wasPositionOpen = true <;>
          simp [trendTickStatsStep, detectManualPositionClose, hflat, hhas, hwas] <;>
            split_ifs <;> exact ⟨rfl, rfl, rfl, rfl, rfl⟩

/-- C7 witness. -/
theorem C7_fee_breaker_scope_witness :
    submitMarketOrder [⟨0, "S", .buy, 1, 100, 50, "o"⟩] 1000 0 1 1 false 0 0 0 .buy 1 0 =
      { tradeLog := 1, actions := [] } :=
  C7_fee_breaker_scope.2.1 [⟨0, "S", .buy, 1, 100, 50, "o"⟩] 1000 0 1 1 false 0 0 0 .buy
    1 0 (by norm_num [shouldStopTrading, getFeeSummary])

/-- C8 failing input, tick 1: long position of 1 @ 100, reference price 105, standard
take-profit (1.5%) satisfied, greedy disabled, mark price absent (guard skipped). The
engine closes the position this tick. -/
def exC8Tick1 : PMInputs :=
  { position := ⟨1, 100, 0, none⟩
    price := 105
    tickerLast := some 105
    depthBid := some 105
    depthAsk := some 105
    priceOffsetPct := 3/500
    activationOffsetPct := 3/250
    priceTick := 1/10000
    maxCloseSlippagePct := 1/20
    lossLimit := 5
    trailingProfit := 10
    profitLockTrigger := 10000
    profitLockOffset := 1
    stopLossPct := 3/400
    takeProfitPct := 3/200
    tradeAmount := 1
    openOrders := []
    refPrice := some 105
    greedyCfg := ⟨false, 10, 1/500, 30000, 1/200⟩
    now := 0 }

/-- C8 failing input, tick 2: the next account snapshot reports the position flat. -/
def exC8Tick2 : PMInputs :=
  { exC8Tick1 with position := ⟨0, 0, 0, none⟩, now := 1000 }

/-- C8 initial statistics state. -/
def exC8Init : EngineStats := ⟨0, 0, false, 0, 0, none, [], 0, 0⟩

/-- C8 failing run: the engine-initiated close of tick 1 issues exactly one market close
and already counts the trade (`totalTrades = 1`, `totalProfit = 5`); on tick 2 the flat
snapshot makes `detectManualPositionClose` treat the same close as a manual one and
count it again (`totalTrades = 2`, `totalProfit = 10`) although tick 2 issues no
mutation — the statistics are incremented twice for a single close, contradicting the
claim. -/
theorem C8_stats_double_count :
    ((trendTickStatsStep (1/2500) "X" exC8Init exC8Tick1).1.totalTrades = 1 ∧
      (trendTickStatsStep (1/2500) "X" exC8Init exC8Tick1).1.totalProfit = 5 ∧
      ((trendTickStatsStep (1/2500) "X" exC8Init exC8Tick1).2.filter
          (fun a => match a with | .marketClose _ _ => true | _ => false)).length = 1) ∧
    ((trendTickStatsStep (1/2500) "X"
        (trendTickStatsStep (1/2500) "X" exC8Init exC8Tick1).1 exC8Tick2).1.totalTrades
        = 2 ∧
      (trendTickStatsStep (1/2500) "X"
        (trendTickStatsStep (1/2500) "X" exC8Init exC8Tick1).1 exC8Tick2).1.totalProfit
        = 10 ∧
      (trendTickStatsStep (1/2500) "X"
        (trendTickStatsStep (1/2500) "X" exC8Init exC8Tick1).1 exC8Tick2).2 = []) := by
  refine ⟨⟨?_, ?_, ?_⟩, ?_, ?_, ?_⟩ <;>
    norm_num [trendTickStatsStep, detectManualPositionClose, exC8Init, exC8Tick1,
      exC8Tick2, handlePositionManagement, refineStopPrice, calcStopLossPrice,
      calcTrailingActivationPrice, roundDownToTick, orElseNum, shouldActivateGreedy,
      updateAndCheckTakeProfit, greedyIsActive, shouldTakeProfitByPercentage,
      shouldStopLossByPercentage, closeBlockedByMarkGuard, replaceStopActions,
      List.find?, calculateProfitPercent, updatePriceHistory, updateBestPrice,
      detectPriceReversal, recordTrade, cleanOldRecords, abs_of_pos, abs_of_nonneg,
      jsRound]
